import Mathlib

/-!
Verification development for the Skywire Nano SDK secure-service call
multiplexer and the fota_download adapter.

The definitions below are shallow embeddings of the C sources:

- src/nimbelink/sdk/secure_services/call.h (request encoding macros,
  channel-count constants, service enumeration, transport contract)
- src/nimbelink/sdk/secure_services/zephyr/call.c (channel allocator,
  synchronous call dispatcher, internal-service interceptor, EGU
  interrupt handler, asynchronous message pump)
- the fota_download adapter (fota_download_start and its URC handler)

Machine integers are modelled as Nat with explicit bounds; the uint16_t
channel bitmap carries the invariant that it is below 2^16. Calls into
external primitives (the Non-Secure-Callable transport, k_sem_take,
libc strtoul) are modelled as oracle inputs; the fields of the result
structures record which primitives a run invoked.
-/

namespace Skywire

/-! Constants from call.h. -/

/-- Number of bidirectional secure-service channels (call.h). -/
def SECURE_SERVICE_CHANNEL_COUNT : Nat := 4

/-- The reserved asynchronous channel, tacked onto the end (call.h). -/
def SECURE_SERVICE_ASYNC_CHANNEL : Nat := SECURE_SERVICE_CHANNEL_COUNT

/-- Service identifier SecureService_Kernel (call.h enum SecureService). -/
def SecureService_Kernel : Nat := 0

/-- Service identifier SecureService_At (call.h enum SecureService). -/
def SecureService_At : Nat := 1

/-- Service identifier SecureService_App (call.h enum SecureService). -/
def SecureService_App : Nat := 2

/-- Service identifier SecureService_Net (call.h enum SecureService). -/
def SecureService_Net : Nat := 3

/-- AT API identifier for subscribing to URCs (at.h, At_Apis_SubscribeUrcs). -/
def At_Api_SubscribeUrcs : Nat := 1

/-! Errno values, as used by the Zephyr minimal libc / newlib errno.h. -/

def ENOMEM : Int := 12
def EAGAIN : Int := 11
def EINVAL : Int := 22
def ENOEXEC : Int := 8
def ENOBUFS : Int := 105
def ETIMEDOUT : Int := 116
def EALREADY : Int := 120

/-- Timeout result of the transport primitive __PutSecureServiceRequest, as
documented in call.h: return -ETIMEDOUT means failed to queue the request. -/
def PutSecureServiceRequest_TimeoutCode : Int := -ETIMEDOUT

/-! Request encoding (call.h macros CREATE_REQUEST, GET_CHANNEL, GET_SERVICE,
GET_API).  The C macros operate on uint32_t; inputs arrive as uint8_t
channel, uint8_t service and uint16_t api, so they are below 2^8 and 2^16
respectively, and the packed word fits in 32 bits. -/

/-- Embedding of the CREATE_REQUEST macro from call.h. -/
def CREATE_REQUEST (channel service api : Nat) : Nat :=
  (((channel <<< 24) &&& 0xFF000000) ||| ((service <<< 16) &&& 0x00FF0000)) ||| api

/-- Embedding of the GET_CHANNEL macro from call.h. -/
def GET_CHANNEL (request : Nat) : Nat :=
  (request >>> 24) &&& 0x000000FF

/-- Embedding of the GET_SERVICE macro from call.h. -/
def GET_SERVICE (request : Nat) : Nat :=
  (request >>> 16) &&& 0x000000FF

/-- Embedding of the GET_API macro from call.h. -/
def GET_API (request : Nat) : Nat :=
  request &&& 0x0000FFFF

/-! Bit-level helper lemmas for the mask constants. -/

theorem testBit_255 (i : Nat) : Nat.testBit 255 i = decide (i < 8) := by
  rw [show (255 : Nat) = 2 ^ 8 - 1 by norm_num]
  exact Nat.testBit_two_pow_sub_one 8 i

theorem testBit_65535 (i : Nat) : Nat.testBit 65535 i = decide (i < 16) := by
  rw [show (65535 : Nat) = 2 ^ 16 - 1 by norm_num]
  exact Nat.testBit_two_pow_sub_one 16 i

theorem testBit_maskHi (i : Nat) :
    Nat.testBit 0xFF000000 i = (decide (24 ≤ i) && decide (i < 32)) := by
  rw [show (0xFF000000 : Nat) = 255 <<< 24 by norm_num [Nat.shiftLeft_eq]]
  rw [Nat.testBit_shiftLeft, testBit_255]
  rcases Nat.lt_or_ge i 24 with h | h
  · simp [show ¬ 24 ≤ i by omega]
  · have h2 : (i - 24 < 8) ↔ (i < 32) := by omega
    simp [h, h2]

theorem testBit_maskMid (i : Nat) :
    Nat.testBit 0x00FF0000 i = (decide (16 ≤ i) && decide (i < 24)) := by
  rw [show (0x00FF0000 : Nat) = 255 <<< 16 by norm_num [Nat.shiftLeft_eq]]
  rw [Nat.testBit_shiftLeft, testBit_255]
  rcases Nat.lt_or_ge i 16 with h | h
  · simp [show ¬ 16 ≤ i by omega]
  · have h2 : (i - 16 < 8) ↔ (i < 24) := by omega
    simp [h, h2]

theorem testBit_small {x i n : Nat} (hx : x < 2 ^ n) (h : n ≤ i) :
    Nat.testBit x i = false :=
  Nat.testBit_lt_two_pow (lt_of_lt_of_le hx (Nat.pow_le_pow_right (by norm_num) h))

theorem testBit_CREATE_REQUEST (channel service api i : Nat)
    (hc : channel < 2 ^ 8) (hs : service < 2 ^ 8) (ha : api < 2 ^ 16) :
    Nat.testBit (CREATE_REQUEST channel service api) i =
      if i < 16 then Nat.testBit api i
      else if i < 24 then Nat.testBit service (i - 16)
      else Nat.testBit channel (i - 24) := by
  unfold CREATE_REQUEST
  rw [Nat.testBit_or, Nat.testBit_or, Nat.testBit_and, Nat.testBit_and,
    Nat.testBit_shiftLeft, Nat.testBit_shiftLeft, testBit_maskHi, testBit_maskMid]
  rcases Nat.lt_or_ge i 16 with h16 | h16
  · simp [show ¬ 24 ≤ i by omega, show ¬ 16 ≤ i by omega, h16]
  · rcases Nat.lt_or_ge i 24 with h24 | h24
    · have hai : Nat.testBit api i = false := testBit_small ha h16
      simp [h16, h24, hai, show ¬ 24 ≤ i by omega, show 16 ≤ i by omega,
        show ¬ i < 16 by omega]
    · have hai : Nat.testBit api i = false := testBit_small ha (by omega)
      have hsi : Nat.testBit service (i - 16) = false := testBit_small hs (by omega)
      rcases Nat.lt_or_ge i 32 with h32 | h32
      · simp [hai, hsi, h32, show 24 ≤ i by omega, show ¬ i < 16 by omega,
          show ¬ i < 24 by omega]
      · have hci : Nat.testBit channel (i - 24) = false := testBit_small hc (by omega)
        simp [hai, hsi, hci, show ¬ i < 16 by omega, show ¬ i < 24 by omega]

/-- CLAIM C5: for every channel in 0..N, every 8-bit service value and every
16-bit API value, decoding the word produced by CREATE_REQUEST returns the
original triple: GET_CHANNEL, GET_SERVICE and GET_API invert the encoder. -/
theorem create_request_roundtrip (channel service api : Nat)
    (hc : channel ≤ SECURE_SERVICE_CHANNEL_COUNT)
    (hs : service < 2 ^ 8) (ha : api < 2 ^ 16) :
    GET_CHANNEL (CREATE_REQUEST channel service api) = channel ∧
    GET_SERVICE (CREATE_REQUEST channel service api) = service ∧
    GET_API (CREATE_REQUEST channel service api) = api := by
  have hc8 : channel < 2 ^ 8 := by
    have : SECURE_SERVICE_CHANNEL_COUNT = 4 := rfl
    omega
  refine ⟨?_, ?_, ?_⟩
  · apply Nat.eq_of_testBit_eq
    intro i
    unfold GET_CHANNEL
    rw [Nat.testBit_and, Nat.testBit_shiftRight, testBit_255,
      testBit_CREATE_REQUEST _ _ _ _ hc8 hs ha]
    rcases Nat.lt_or_ge i 8 with h8 | h8
    · simp [show ¬ 24 + i < 16 by omega, show ¬ 24 + i < 24 by omega, h8,
        show 24 + i - 24 = i by omega]
    · have hci : Nat.testBit channel i = false := testBit_small hc8 h8
      simp [hci, show ¬ i < 8 by omega]
  · apply Nat.eq_of_testBit_eq
    intro i
    unfold GET_SERVICE
    rw [Nat.testBit_and, Nat.testBit_shiftRight, testBit_255,
      testBit_CREATE_REQUEST _ _ _ _ hc8 hs ha]
    rcases Nat.lt_or_ge i 8 with h8 | h8
    · simp [show ¬ 16 + i < 16 by omega, show 16 + i < 24 by omega, h8,
        show 16 + i - 16 = i by omega]
    · have hsi : Nat.testBit service i = false := testBit_small hs h8
      simp [hsi, show ¬ i < 8 by omega]
  · apply Nat.eq_of_testBit_eq
    intro i
    unfold GET_API
    rw [Nat.testBit_and, testBit_65535,
      testBit_CREATE_REQUEST _ _ _ _ hc8 hs ha]
    rcases Nat.lt_or_ge i 16 with h16 | h16
    · simp [h16]
    · have hai : Nat.testBit api i = false := testBit_small ha h16
      simp [hai, show ¬ i < 16 by omega]

/-- Witness for C5: encoding (channel = 2, service = 1, api = 0) decodes to
exactly (2, 1, 0). -/
theorem create_request_roundtrip_witness :
    GET_CHANNEL (CREATE_REQUEST 2 1 0) = 2 ∧
    GET_SERVICE (CREATE_REQUEST 2 1 0) = 1 ∧
    GET_API (CREATE_REQUEST 2 1 0) = 0 :=
  create_request_roundtrip 2 1 0 (by decide) (by decide) (by decide)

/-! Channel allocator (call.c, ReserveChannel and FreeChannel).  The C loop
scans the uint16_t bitmap for the lowest clear bit among the bidirectional
channels; reserveFrom mirrors the loop with its running index.  Success is
modelled as some (index, new bitmap); the C function returns the index
through an out-parameter and a bool. -/

/-- Embedding of ReserveChannel from call.c: the loop over channel indices
0 .. SECURE_SERVICE_CHANNEL_COUNT - 1 takes the first index whose bit is
clear ((channels & (1 << i)) == 0), sets that bit and breaks; if the loop
completes, no channel was available. -/
def ReserveChannel (channels : Nat) : Option (Nat × Nat) :=
  match (List.range SECURE_SERVICE_CHANNEL_COUNT).find?
      (fun i => channels &&& (1 <<< i) == 0) with
  | some i => some (i, channels ||| (1 <<< i))
  | none => none

/-- Embedding of FreeChannel from call.c: channels &= ~(1 << channel) on a
uint16_t bitmap, guarded by the channel < SECURE_SERVICE_CHANNEL_COUNT
validity check; the complement is taken at width 16. -/
def FreeChannel (channels : Nat) (channel : Nat) : Nat :=
  if channel < SECURE_SERVICE_CHANNEL_COUNT then
    channels &&& (0xFFFF ^^^ (1 <<< channel))
  else
    channels

theorem and_shift_one_eq_zero_iff (b i : Nat) :
    (b &&& (1 <<< i) = 0) ↔ b.testBit i = false := by
  rw [show (1 <<< i : Nat) = 2 ^ i by simp [Nat.shiftLeft_eq], Nat.and_two_pow]
  cases h : b.testBit i <;> simp [h]

theorem reserve_pred_eq (b i : Nat) :
    (b &&& (1 <<< i) == 0) = !b.testBit i := by
  cases h : b.testBit i
  · simp [(and_shift_one_eq_zero_iff b i).mpr h]
  · have : ¬ (b &&& (1 <<< i) = 0) := by
      intro hz
      rw [(and_shift_one_eq_zero_iff b i).mp hz] at h
      cases h
    simp [this]

/-- Closed form of the four-step reservation scan. -/
theorem ReserveChannel_eq (b : Nat) :
    ReserveChannel b =
      if b.testBit 0 = false then some (0, b ||| 1)
      else if b.testBit 1 = false then some (1, b ||| 2)
      else if b.testBit 2 = false then some (2, b ||| 4)
      else if b.testBit 3 = false then some (3, b ||| 8)
      else none := by
  have p0 : (b &&& 1 == 0) = !b.testBit 0 := reserve_pred_eq b 0
  have p1 : (b &&& 2 == 0) = !b.testBit 1 := reserve_pred_eq b 1
  have p2 : (b &&& 4 == 0) = !b.testBit 2 := reserve_pred_eq b 2
  have p3 : (b &&& 8 == 0) = !b.testBit 3 := reserve_pred_eq b 3
  have p0m : (b % 2 == 0) = !b.testBit 0 := by
    rw [Nat.testBit_zero]
    rcases Nat.mod_two_eq_zero_or_one b with h | h <;> simp [h]
  unfold ReserveChannel
  rw [show List.range SECURE_SERVICE_CHANNEL_COUNT = [0, 1, 2, 3] from rfl]
  cases h0 : b.testBit 0 <;>
    cases h1 : b.testBit 1 <;>
      cases h2 : b.testBit 2 <;>
        cases h3 : b.testBit 3 <;>
          simp [List.find?, p0, p1, p2, p3, p0m, h0, h1, h2, h3]

theorem testBit_or_shift_self (x i : Nat) : (x ||| (1 <<< i)).testBit i = true := by
  rw [Nat.testBit_or, show (1 <<< i : Nat) = 2 ^ i by simp [Nat.shiftLeft_eq],
    Nat.testBit_two_pow_self, Bool.or_true]

/-- Helper for C6: everything a successful reservation guarantees, for an
arbitrary starting bitmap. -/
theorem ReserveChannel_some_spec (b : Nat) :
    ∀ i bNew, ReserveChannel b = some (i, bNew) →
      i < SECURE_SERVICE_CHANNEL_COUNT ∧
      b.testBit i = false ∧
      (∀ j, j < i → b.testBit j = true) ∧
      bNew = b ||| (1 <<< i) ∧
      bNew.testBit i = true := by
  have hb1 : ∀ x : Nat, x ||| (1 <<< 0) = x ||| 1 := by intro x; rfl
  have hb2 : ∀ x : Nat, x ||| (1 <<< 1) = x ||| 2 := by intro x; rfl
  have hb4 : ∀ x : Nat, x ||| (1 <<< 2) = x ||| 4 := by intro x; rfl
  have hb8 : ∀ x : Nat, x ||| (1 <<< 3) = x ||| 8 := by intro x; rfl
  have horset := testBit_or_shift_self
  intro i bNew h
  rw [ReserveChannel_eq] at h
  by_cases h0 : b.testBit 0 = false
  · rw [if_pos h0] at h
    simp only [Option.some.injEq, Prod.mk.injEq] at h
    obtain ⟨hi, hbn⟩ := h
    subst hi
    subst hbn
    refine ⟨by decide, h0, ?_, (hb1 b).symm, by rw [← hb1 b]; exact horset b 0⟩
    intro j hj
    exact absurd hj (Nat.not_lt_zero j)
  · rw [if_neg h0] at h
    by_cases h1 : b.testBit 1 = false
    · rw [if_pos h1] at h
      simp only [Option.some.injEq, Prod.mk.injEq] at h
      obtain ⟨hi, hbn⟩ := h
      subst hi
      subst hbn
      refine ⟨by decide, h1, ?_, (hb2 b).symm, by rw [← hb2 b]; exact horset b 1⟩
      intro j hj
      interval_cases j
      simpa using h0
    · rw [if_neg h1] at h
      by_cases h2 : b.testBit 2 = false
      · rw [if_pos h2] at h
        simp only [Option.some.injEq, Prod.mk.injEq] at h
        obtain ⟨hi, hbn⟩ := h
        subst hi
        subst hbn
        refine ⟨by decide, h2, ?_, (hb4 b).symm, by rw [← hb4 b]; exact horset b 2⟩
        intro j hj
        interval_cases j
        · simpa using h0
        · simpa using h1
      · rw [if_neg h2] at h
        by_cases h3 : b.testBit 3 = false
        · rw [if_pos h3] at h
          simp only [Option.some.injEq, Prod.mk.injEq] at h
          obtain ⟨hi, hbn⟩ := h
          subst hi
          subst hbn
          refine ⟨by decide, h3, ?_, (hb8 b).symm, by rw [← hb8 b]; exact horset b 3⟩
          intro j hj
          interval_cases j
          · simpa using h0
          · simpa using h1
          · simpa using h2
        · rw [if_neg h3] at h
          cases h

/-- CLAIM C6: whenever one of the N bidirectional channel bits is clear,
ReserveChannel takes the lowest-numbered clear bit, sets it and returns that
index; when all N bits are set it fails with the bitmap unchanged; a returned
index is always below N (never the async channel); and a reservation never
returns an index whose bit is already set, so two outstanding reservations
never share an index (the second reservation happens on a bitmap in which the
first index bit is still set). -/
theorem reserve_channel_spec (b : Nat) :
    (∀ i bNew, ReserveChannel b = some (i, bNew) →
      i < SECURE_SERVICE_CHANNEL_COUNT ∧
      b.testBit i = false ∧
      (∀ j, j < i → b.testBit j = true) ∧
      bNew = b ||| (1 <<< i) ∧
      bNew.testBit i = true) ∧
    ((∃ i, i < SECURE_SERVICE_CHANNEL_COUNT ∧ b.testBit i = false) →
      ∃ i bNew, ReserveChannel b = some (i, bNew)) ∧
    ((∀ i, i < SECURE_SERVICE_CHANNEL_COUNT → b.testBit i = true) →
      ReserveChannel b = none) ∧
    (∀ i bNew j bNew2, ReserveChannel b = some (i, bNew) →
      ReserveChannel bNew = some (j, bNew2) → j ≠ i) := by
  have count4 : SECURE_SERVICE_CHANNEL_COUNT = 4 := rfl
  refine ⟨ReserveChannel_some_spec b, ?_, ?_, ?_⟩
  · intro ⟨i, hi, hfree⟩
    rw [ReserveChannel_eq]
    by_cases h0 : b.testBit 0 = false
    · exact ⟨0, b ||| 1, by rw [if_pos h0]⟩
    · by_cases h1 : b.testBit 1 = false
      · exact ⟨1, b ||| 2, by rw [if_neg h0, if_pos h1]⟩
      · by_cases h2 : b.testBit 2 = false
        · exact ⟨2, b ||| 4, by rw [if_neg h0, if_neg h1, if_pos h2]⟩
        · by_cases h3 : b.testBit 3 = false
          · exact ⟨3, b ||| 8, by rw [if_neg h0, if_neg h1, if_neg h2, if_pos h3]⟩
          · exfalso
            rw [count4] at hi
            interval_cases i <;> simp_all
  · intro hall
    rw [ReserveChannel_eq]
    simp [hall 0 (by omega), hall 1 (by omega), hall 2 (by omega),
      hall 3 (by omega)]
  · intro i bNew j bNew2 h1 h2 hji
    obtain ⟨-, -, -, -, hset⟩ := ReserveChannel_some_spec b i bNew h1
    obtain ⟨-, hfree2, -, -, -⟩ := ReserveChannel_some_spec bNew j bNew2 h2
    rw [hji, hset] at hfree2
    simp at hfree2

/-- Witness for C6: on bitmap 0b0101 the allocator returns channel 1 and sets
its bit, on the resulting bitmap 0b0111 it returns channel 3, and on the full
bitmap 0b1111 it fails. -/
theorem reserve_channel_spec_witness :
    (1 : Nat) < SECURE_SERVICE_CHANNEL_COUNT ∧ Nat.testBit 5 1 = false ∧
    7 = 5 ||| (1 <<< 1) ∧ ReserveChannel 15 = none := by
  have h := (reserve_channel_spec 5).1 1 7 (by decide)
  exact ⟨h.1, h.2.1, h.2.2.2.1, (reserve_channel_spec 15).2.2.1 (by decide)⟩

/-- Freeing a channel that was just reserved restores the original bitmap. -/
theorem FreeChannel_or_shift (b ch : Nat) (hb : b < 2 ^ 16)
    (hch : ch < SECURE_SERVICE_CHANNEL_COUNT) (h : b.testBit ch = false) :
    FreeChannel (b ||| (1 <<< ch)) ch = b := by
  unfold FreeChannel
  rw [if_pos hch]
  have hch16 : ch < 16 := by
    have : SECURE_SERVICE_CHANNEL_COUNT = 4 := rfl
    omega
  apply Nat.eq_of_testBit_eq
  intro i
  rw [Nat.testBit_and, Nat.testBit_or, Nat.testBit_xor, testBit_65535,
    show (1 <<< ch : Nat) = 2 ^ ch by simp [Nat.shiftLeft_eq], Nat.testBit_two_pow]
  by_cases hi : i = ch
  · subst hi
    simp [h, hch16]
  · have hci : ¬ ch = i := fun hx => hi hx.symm
    rcases Nat.lt_or_ge i 16 with h16 | h16
    · simp [h16, hci]
    · have hbi : Nat.testBit b i = false := testBit_small hb h16
      simp [hbi, show ¬ i < 16 by omega, hci]

/-! Synchronous call dispatcher (call.c: HandleInternalService and
CallSecureService).

State touched by a call: the channel bitmap (uint16_t channels) and the URC
callback registration (static At_UrcCallback urcCallback, modelled as
Option Nat with none for NULL; a callback value is an opaque token).

The parameters pointer is opaque to the dispatcher; for the internal
URC-subscription handler the relevant observations are whether the pointer
is NULL, the size argument, and the callback field read from the structure
(itself possibly NULL, hence Option Nat).

The external primitives are oracles supplied as arguments: putResult is what
PutSecureServiceRequest returns, semResult what the blocking
k_sem_take(..., K_FOREVER) returns, getResult what GetSecureServiceResponse
returns.  The CallResult record also reports which primitives the run
invoked, so that claims about skipped waits are expressible. -/

/-- Size in bytes of struct At_SubscribeUrcsParameters: one function pointer
on the 32-bit Cortex-M33. -/
def sizeof_At_SubscribeUrcsParameters : Nat := 4

/-- Embedding of HandleInternalService from call.c.  Returns none when the
(service, api) pair is not handled internally; otherwise some (result, new
value of urcCallback). -/
def HandleInternalService (urcCb : Option Nat) (service api : Nat)
    (paramsNull : Bool) (size : Nat) (cbField : Option Nat) :
    Option (Int × Option Nat) :=
  if service = SecureService_At ∧ api = At_Api_SubscribeUrcs then
    if urcCb = none ∧ paramsNull = false ∧
        size = sizeof_At_SubscribeUrcsParameters then
      some (0, cbField)
    else
      some (-ENOMEM, urcCb)
  else
    none

/-- Observable outcome of one CallSecureService run. -/
structure CallResult where
  result : Int
  channels : Nat
  urcCallback : Option Nat
  putCalled : Bool
  semPrecleared : Bool
  semWaited : Bool
  getCalled : Bool
  reserved : Option Nat
deriving Repr, DecidableEq

/-- Embedding of CallSecureService from call.c.  The k_sem_take with
K_NO_WAIT after reservation is the pre-clearing step (semPrecleared); the
k_sem_take with K_FOREVER is the blocking wait (semWaited). -/
def CallSecureService (channels : Nat) (urcCb : Option Nat)
    (service api : Nat) (paramsNull : Bool) (size : Nat) (cbField : Option Nat)
    (putResult semResult getResult : Int) : CallResult :=
  match HandleInternalService urcCb service api paramsNull size cbField with
  | some (r, cbNew) =>
    ⟨r, channels, cbNew, false, false, false, false, none⟩
  | none =>
    match ReserveChannel channels with
    | none =>
      ⟨-ETIMEDOUT, channels, urcCb, false, false, false, false, none⟩
    | some (channel, reservedMap) =>
      if putResult = 1 then
        ⟨0, FreeChannel reservedMap channel, urcCb,
          true, true, false, false, some channel⟩
      else if putResult ≠ 0 then
        ⟨putResult, FreeChannel reservedMap channel, urcCb,
          true, true, false, false, some channel⟩
      else if semResult ≠ 0 then
        ⟨-ETIMEDOUT, FreeChannel reservedMap channel, urcCb,
          true, true, true, false, some channel⟩
      else
        ⟨getResult, FreeChannel reservedMap channel, urcCb,
          true, true, true, true, some channel⟩

/-- Counterexample for C2: with all four bidirectional channels reserved
(bitmap 0b1111), a non-internal call fails with -ETIMEDOUT, which is exactly
the code the transport primitive documents for its own queueing timeout, so
the no-channels failure code is not distinct from the transport timeout
code. -/
theorem no_channels_code_counterexample :
    (CallSecureService 15 none SecureService_Kernel 0 true 0 none 0 0 0).result
        = PutSecureServiceRequest_TimeoutCode ∧
    PutSecureServiceRequest_TimeoutCode = -ETIMEDOUT ∧
    (CallSecureService 15 none SecureService_Kernel 0 true 0 none 0 0 0).channels
        = 15 := by
  decide

/-- CLAIM C2 (amended): for every call to CallSecureService that is not
handled internally, when all N bidirectional channels are already reserved
the call fails with -ETIMEDOUT — numerically the very code the transport
layer documents for its queueing timeout, not a distinct code — and the
channel bitmap is left unchanged, with no transport primitive invoked. -/
theorem no_channels_failure (channels : Nat) (urcCb : Option Nat)
    (service api : Nat) (paramsNull : Bool) (size : Nat) (cbField : Option Nat)
    (put sem get : Int)
    (hint : HandleInternalService urcCb service api paramsNull size cbField = none)
    (hfull : ∀ i, i < SECURE_SERVICE_CHANNEL_COUNT → channels.testBit i = true) :
    (CallSecureService channels urcCb service api paramsNull size cbField
        put sem get).result = -ETIMEDOUT ∧
    (CallSecureService channels urcCb service api paramsNull size cbField
        put sem get).result = PutSecureServiceRequest_TimeoutCode ∧
    (CallSecureService channels urcCb service api paramsNull size cbField
        put sem get).channels = channels ∧
    (CallSecureService channels urcCb service api paramsNull size cbField
        put sem get).putCalled = false ∧
    (CallSecureService channels urcCb service api paramsNull size cbField
        put sem get).getCalled = false := by
  have hres : ReserveChannel channels = none :=
    (reserve_channel_spec channels).2.2.1 hfull
  unfold CallSecureService
  rw [hint, hres]
  simp [PutSecureServiceRequest_TimeoutCode]

/-- Witness for C2: the amended no-channels behaviour on the full bitmap. -/
theorem no_channels_failure_witness :
    (CallSecureService 15 none SecureService_Kernel 0 true 0 none 1 0 0).result
        = -ETIMEDOUT ∧
    (CallSecureService 15 none SecureService_Kernel 0 true 0 none 1 0 0).result
        = PutSecureServiceRequest_TimeoutCode ∧
    (CallSecureService 15 none SecureService_Kernel 0 true 0 none 1 0 0).channels
        = 15 ∧
    (CallSecureService 15 none SecureService_Kernel 0 true 0 none 1 0 0).putCalled
        = false ∧
    (CallSecureService 15 none SecureService_Kernel 0 true 0 none 1 0 0).getCalled
        = false :=
  no_channels_failure 15 none SecureService_Kernel 0 true 0 none 1 0 0
    (by decide) (by decide)

/-- CLAIM C3: every execution of CallSecureService leaves the channel bitmap
exactly as it found it — in particular every execution that reserves a
channel frees it on every exit path (handled-immediately, PutRequest
failure, semaphore-wait failure, GetResponse path and success). -/
theorem channel_freed_on_every_path (channels : Nat) (urcCb : Option Nat)
    (service api : Nat) (paramsNull : Bool) (size : Nat) (cbField : Option Nat)
    (put sem get : Int) (hb : channels < 2 ^ 16) :
    (CallSecureService channels urcCb service api paramsNull size cbField
        put sem get).channels = channels := by
  unfold CallSecureService
  cases hint : HandleInternalService urcCb service api paramsNull size cbField with
  | some pr =>
    cases pr
    simp
  | none =>
    cases hres : ReserveChannel channels with
    | none => simp
    | some pr =>
      obtain ⟨ch, bNew⟩ := pr
      obtain ⟨hlt, hfree, -, hEq, -⟩ :=
        ReserveChannel_some_spec channels ch bNew hres
      subst hEq
      have hfc := FreeChannel_or_shift channels ch hb hlt hfree
      by_cases h1 : put = 1 <;> by_cases h0 : put = 0 <;>
        by_cases hsem : sem = 0 <;> simp [h1, h0, hsem, hfc]

/-- Witness for C3: a call on bitmap 0b0101 that goes through the full
put/wait/get path returns the bitmap to 0b0101. -/
theorem channel_freed_on_every_path_witness :
    (CallSecureService 5 none SecureService_Kernel 0 true 0 none 0 0 7).channels
        = 5 :=
  channel_freed_on_every_path 5 none SecureService_Kernel 0 true 0 none 0 0 7
    (by decide)

/-- CLAIM C4: a call with (service = AT, api = SubscribeUrcs) is handled
entirely on the Non-Secure side: no transport primitive runs, no channel is
reserved, and the bitmap is untouched; it returns 0 exactly when no callback
is registered, the parameter pointer is non-null and the size matches
struct At_SubscribeUrcsParameters, in which case the supplied callback field
is stored; otherwise it returns -ENOMEM and the existing registration is
unchanged, so a second registration attempt fails and the first callback
stays in effect. -/
theorem subscribe_urcs_internal (channels : Nat) (urcCb : Option Nat)
    (paramsNull : Bool) (size : Nat) (cbField : Option Nat)
    (put sem get : Int) :
    (CallSecureService channels urcCb SecureService_At At_Api_SubscribeUrcs
        paramsNull size cbField put sem get).putCalled = false ∧
    (CallSecureService channels urcCb SecureService_At At_Api_SubscribeUrcs
        paramsNull size cbField put sem get).getCalled = false ∧
    (CallSecureService channels urcCb SecureService_At At_Api_SubscribeUrcs
        paramsNull size cbField put sem get).semWaited = false ∧
    (CallSecureService channels urcCb SecureService_At At_Api_SubscribeUrcs
        paramsNull size cbField put sem get).reserved = none ∧
    (CallSecureService channels urcCb SecureService_At At_Api_SubscribeUrcs
        paramsNull size cbField put sem get).channels = channels ∧
    ((CallSecureService channels urcCb SecureService_At At_Api_SubscribeUrcs
        paramsNull size cbField put sem get).result = 0 ↔
      (urcCb = none ∧ paramsNull = false ∧
        size = sizeof_At_SubscribeUrcsParameters)) ∧
    ((urcCb = none ∧ paramsNull = false ∧
        size = sizeof_At_SubscribeUrcsParameters) →
      (CallSecureService channels urcCb SecureService_At At_Api_SubscribeUrcs
        paramsNull size cbField put sem get).urcCallback = cbField) ∧
    (¬ (urcCb = none ∧ paramsNull = false ∧
        size = sizeof_At_SubscribeUrcsParameters) →
      (CallSecureService channels urcCb SecureService_At At_Api_SubscribeUrcs
        paramsNull size cbField put sem get).result = -ENOMEM ∧
      (CallSecureService channels urcCb SecureService_At At_Api_SubscribeUrcs
        paramsNull size cbField put sem get).urcCallback = urcCb) := by
  unfold CallSecureService HandleInternalService
  by_cases hcond : urcCb = none ∧ paramsNull = false ∧
      size = sizeof_At_SubscribeUrcsParameters
  · simp [hcond]
  · simp only [if_pos (And.intro rfl rfl), if_neg hcond]
    simp [hcond]
    decide

/-- Witness for C4: a first registration succeeds and stores the callback; a
second registration attempt fails with -ENOMEM and the first callback stays
in effect. -/
theorem subscribe_urcs_internal_witness :
    (CallSecureService 0 none SecureService_At At_Api_SubscribeUrcs
        false 4 (some 7) 0 0 0).result = 0 ∧
    (CallSecureService 0 none SecureService_At At_Api_SubscribeUrcs
        false 4 (some 7) 0 0 0).urcCallback = some 7 ∧
    (CallSecureService 0 (some 7) SecureService_At At_Api_SubscribeUrcs
        false 4 (some 9) 0 0 0).result = -ENOMEM ∧
    (CallSecureService 0 (some 7) SecureService_At At_Api_SubscribeUrcs
        false 4 (some 9) 0 0 0).urcCallback = some 7 := by
  have h1 := subscribe_urcs_internal 0 none false 4 (some 7) 0 0 0
  have h2 := subscribe_urcs_internal 0 (some 7) false 4 (some 9) 0 0 0
  have c1 : (none : Option Nat) = none ∧ false = false ∧
      4 = sizeof_At_SubscribeUrcsParameters := by decide
  have c2 : ¬ ((some 7 : Option Nat) = none ∧ false = false ∧
      4 = sizeof_At_SubscribeUrcsParameters) := by decide
  exact ⟨h1.2.2.2.2.2.1.mpr c1, h1.2.2.2.2.2.2.1 c1,
    (h2.2.2.2.2.2.2.2 c2).1, (h2.2.2.2.2.2.2.2 c2).2⟩

/-- CLAIM C7: for a non-internal call whose channel reservation succeeded,
a PutRequest result of 1 (handled immediately) makes the call return 0
without the blocking semaphore wait and without GetResponse, with the
reserved channel freed; a PutRequest result of 0 makes the dispatcher block
on the channel semaphore and, when the wait succeeds, use the GetResponse
result as the call result. -/
theorem put_result_dispatch (channels : Nat) (urcCb : Option Nat)
    (service api : Nat) (paramsNull : Bool) (size : Nat) (cbField : Option Nat)
    (put sem get : Int) (ch bNew : Nat)
    (hint : HandleInternalService urcCb service api paramsNull size cbField = none)
    (hres : ReserveChannel channels = some (ch, bNew)) :
    (put = 1 →
      (CallSecureService channels urcCb service api paramsNull size cbField
          put sem get).result = 0 ∧
      (CallSecureService channels urcCb service api paramsNull size cbField
          put sem get).semWaited = false ∧
      (CallSecureService channels urcCb service api paramsNull size cbField
          put sem get).getCalled = false ∧
      (CallSecureService channels urcCb service api paramsNull size cbField
          put sem get).channels = FreeChannel bNew ch) ∧
    (put = 0 →
      (CallSecureService channels urcCb service api paramsNull size cbField
          put sem get).semWaited = true ∧
      (sem = 0 →
        (CallSecureService channels urcCb service api paramsNull size cbField
            put sem get).getCalled = true ∧
        (CallSecureService channels urcCb service api paramsNull size cbField
            put sem get).result = get)) := by
  unfold CallSecureService
  rw [hint, hres]
  constructor
  · intro h1
    simp [h1]
  · intro h0
    subst h0
    constructor
    · by_cases hsem : sem = 0 <;> simp [hsem]
    · intro hsem
      simp [hsem]

/-- Witness for C7: with one free channel, put = 1 short-circuits to success
with no wait and no fetch, and put = 0 with a successful wait returns the
GetResponse result 7. -/
theorem put_result_dispatch_witness :
    ((CallSecureService 0 none SecureService_Kernel 0 true 0 none 1 0 0).result
        = 0 ∧
      (CallSecureService 0 none SecureService_Kernel 0 true 0 none 1 0 0).semWaited
        = false ∧
      (CallSecureService 0 none SecureService_Kernel 0 true 0 none 1 0 0).getCalled
        = false ∧
      (CallSecureService 0 none SecureService_Kernel 0 true 0 none 1 0 0).channels
        = FreeChannel 1 0) ∧
    ((CallSecureService 0 none SecureService_Kernel 0 true 0 none 0 0 7).semWaited
        = true ∧
      (CallSecureService 0 none SecureService_Kernel 0 true 0 none 0 0 7).getCalled
        = true ∧
      (CallSecureService 0 none SecureService_Kernel 0 true 0 none 0 0 7).result
        = 7) := by
  have hImm := (put_result_dispatch 0 none SecureService_Kernel 0 true 0 none
    1 0 0 0 1 (by decide) (by decide)).1 rfl
  have hWait := (put_result_dispatch 0 none SecureService_Kernel 0 true 0 none
    0 0 7 0 1 (by decide) (by decide)).2 rfl
  exact ⟨hImm, hWait.1, (hWait.2 rfl).1, (hWait.2 rfl).2⟩

/-- CLAIM C10: a URC subscription with a well-formed parameter block whose
callback field is NULL returns 0 yet stores NULL, leaving the registration
slot unconsumed, so a later subscription with a non-null callback still
succeeds; a successful registration return does not imply a subscriber is in
effect. -/
theorem subscribe_urcs_null_callback (channels : Nat) (c : Nat)
    (put sem get put2 sem2 get2 : Int) :
    (CallSecureService channels none SecureService_At At_Api_SubscribeUrcs
        false sizeof_At_SubscribeUrcsParameters none put sem get).result = 0 ∧
    (CallSecureService channels none SecureService_At At_Api_SubscribeUrcs
        false sizeof_At_SubscribeUrcsParameters none put sem get).urcCallback
      = none ∧
    (CallSecureService
        (CallSecureService channels none SecureService_At At_Api_SubscribeUrcs
          false sizeof_At_SubscribeUrcsParameters none put sem get).channels
        (CallSecureService channels none SecureService_At At_Api_SubscribeUrcs
          false sizeof_At_SubscribeUrcsParameters none put sem get).urcCallback
        SecureService_At At_Api_SubscribeUrcs
        false sizeof_At_SubscribeUrcsParameters (some c)
        put2 sem2 get2).result = 0 ∧
    (CallSecureService
        (CallSecureService channels none SecureService_At At_Api_SubscribeUrcs
          false sizeof_At_SubscribeUrcsParameters none put sem get).channels
        (CallSecureService channels none SecureService_At At_Api_SubscribeUrcs
          false sizeof_At_SubscribeUrcsParameters none put sem get).urcCallback
        SecureService_At At_Api_SubscribeUrcs
        false sizeof_At_SubscribeUrcsParameters (some c)
        put2 sem2 get2).urcCallback = some c := by
  simp [CallSecureService, HandleInternalService]

/-! EGU interrupt handling (call.c: HandleEguInterrupt and EguInterrupt).

The hardware state is the per-channel EVENTS_TRIGGERED pending flag read and
cleared through nrf_egu_event_check / nrf_egu_event_clear; the k_sem_give
calls are recorded as a per-channel give counter so that the claim that each
pending channel gets exactly one give is expressible. -/

/-- Hardware and semaphore state visible to the EGU interrupt handler. -/
structure EguState where
  pending : Nat → Bool
  gives : Nat → Nat

/-- Embedding of HandleEguInterrupt from call.c: if the channel's event is
not pending, do nothing; otherwise clear the event and give the channel's
semaphore. -/
def HandleEguInterrupt (s : EguState) (channel : Nat) : EguState :=
  if s.pending channel = false then
    s
  else
    ⟨fun i => if i = channel then false else s.pending i,
     fun i => if i = channel then s.gives i + 1 else s.gives i⟩

/-- Embedding of EguInterrupt from call.c: handle every bidirectional
channel in order, then the asynchronous channel. -/
def EguInterrupt (s : EguState) : EguState :=
  HandleEguInterrupt
    ((List.range SECURE_SERVICE_CHANNEL_COUNT).foldl HandleEguInterrupt s)
    SECURE_SERVICE_ASYNC_CHANNEL

theorem HandleEguInterrupt_pending (s : EguState) (c i : Nat) :
    (HandleEguInterrupt s c).pending i =
      if i = c then false else s.pending i := by
  unfold HandleEguInterrupt
  by_cases h : s.pending c = false
  · rw [if_pos h]
    by_cases hi : i = c
    · subst hi
      simp [h]
    · simp [hi]
  · rw [if_neg h]

theorem HandleEguInterrupt_gives (s : EguState) (c i : Nat) :
    (HandleEguInterrupt s c).gives i =
      if i = c then s.gives i + (if s.pending c then 1 else 0)
      else s.gives i := by
  unfold HandleEguInterrupt
  by_cases h : s.pending c = false
  · rw [if_pos h]
    by_cases hi : i = c <;> simp [hi, h]
  · rw [if_neg h]
    rw [Bool.not_eq_false] at h
    by_cases hi : i = c <;> simp [hi, h]

/-- CLAIM C9: on every invocation the interrupt handler sweeps all N + 1
channels: every channel up to and including the async channel has its
pending flag cleared and receives exactly one semaphore give when it was
pending and none when it was not, and channels beyond the sweep range are
untouched — there is no single-channel indexed dispatch. -/
theorem egu_interrupt_sweep (s : EguState) (ch : Nat) :
    (ch ≤ SECURE_SERVICE_ASYNC_CHANNEL →
      (EguInterrupt s).pending ch = false ∧
      (EguInterrupt s).gives ch =
        s.gives ch + (if s.pending ch then 1 else 0)) ∧
    (SECURE_SERVICE_ASYNC_CHANNEL < ch →
      (EguInterrupt s).pending ch = s.pending ch ∧
      (EguInterrupt s).gives ch = s.gives ch) := by
  have hrange : List.range SECURE_SERVICE_CHANNEL_COUNT = [0, 1, 2, 3] := rfl
  have hasync : SECURE_SERVICE_ASYNC_CHANNEL = 4 := rfl
  constructor
  · intro hch
    rw [hasync] at hch
    unfold EguInterrupt
    rw [hrange, hasync]
    simp only [List.foldl]
    interval_cases ch <;>
      simp [HandleEguInterrupt_pending, HandleEguInterrupt_gives]
  · intro hch
    rw [hasync] at hch
    unfold EguInterrupt
    rw [hrange, hasync]
    simp only [List.foldl]
    simp [HandleEguInterrupt_pending, HandleEguInterrupt_gives,
      show ¬ ch = 0 by omega, show ¬ ch = 1 by omega, show ¬ ch = 2 by omega,
      show ¬ ch = 3 by omega, show ¬ ch = 4 by omega]

/-- Witness for C9: with channels 1 and 4 pending, the sweep clears both,
gives each exactly one semaphore give, and leaves channel 6 untouched. -/
theorem egu_interrupt_sweep_witness :
    (EguInterrupt ⟨fun i => i = 1 || i = 4 || i = 6, fun _ => 0⟩).pending 1
        = false ∧
    (EguInterrupt ⟨fun i => i = 1 || i = 4 || i = 6, fun _ => 0⟩).gives 1
        = 0 + (if (fun i : Nat => i = 1 || i = 4 || i = 6) 1 then 1 else 0) ∧
    (EguInterrupt ⟨fun i => i = 1 || i = 4 || i = 6, fun _ => 0⟩).pending 4
        = false ∧
    (EguInterrupt ⟨fun i => i = 1 || i = 4 || i = 6, fun _ => 0⟩).gives 2
        = 0 + (if (fun i : Nat => i = 1 || i = 4 || i = 6) 2 then 1 else 0) ∧
    (EguInterrupt ⟨fun i => i = 1 || i = 4 || i = 6, fun _ => 0⟩).pending 6
        = (fun i : Nat => i = 1 || i = 4 || i = 6) 6 ∧
    (EguInterrupt ⟨fun i => i = 1 || i = 4 || i = 6, fun _ => 0⟩).gives 6
        = 0 := by
  have h1 := (egu_interrupt_sweep
    ⟨fun i => i = 1 || i = 4 || i = 6, fun _ => 0⟩ 1).1 (by decide)
  have h4 := (egu_interrupt_sweep
    ⟨fun i => i = 1 || i = 4 || i = 6, fun _ => 0⟩ 4).1 (by decide)
  have h2 := (egu_interrupt_sweep
    ⟨fun i => i = 1 || i = 4 || i = 6, fun _ => 0⟩ 2).1 (by decide)
  have h6 := (egu_interrupt_sweep
    ⟨fun i => i = 1 || i = 4 || i = 6, fun _ => 0⟩ 6).2 (by decide)
  exact ⟨h1.1, h1.2, h4.1, h2.2, h6.1, h6.2⟩

/-! Asynchronous message pump (call.c: MonitorAsync).

Each iteration of the inner loop calls GetSecureServiceResponse with the
fixed synthetic request word CREATE_REQUEST(SECURE_SERVICE_ASYNC_CHANNEL,
0, 0) against a struct Async_Parameters; the environment's successive fetch
outcomes (result, event, buffer) are supplied as a list of oracles.  A
fetch dispatches to the registered URC callback only when its result is 0
and the event is Async_Event_AtUrc and a callback is registered; the loop
stops at the first non-zero result, after which the thread blocks on the
async channel's semaphore (k_sem_take K_FOREVER). -/

/-- Event identifier Async_Event_AtUrc (async.h enum Async_Event). -/
def Async_Event_AtUrc : Nat := 0

/-- One outcome of a GetSecureServiceResponse call on the async channel:
its return value and the Async_Parameters contents it produced. -/
structure AsyncFetch where
  result : Int
  event : Nat
  buffer : List Char
deriving Repr, DecidableEq

/-- Inner drain loop of MonitorAsync: returns the list of (callback,
buffer) invocations performed and the number of fetches consumed, stopping
after the first fetch whose result is non-zero. -/
def drainAsync (urcCb : Option Nat) :
    List AsyncFetch → List (Nat × List Char) × Nat
  | [] => ([], 0)
  | f :: rest =>
    if f.result ≠ 0 then
      ([], 1)
    else
      let dispatched :=
        if f.event = Async_Event_AtUrc then
          match urcCb with
          | some cb => [(cb, f.buffer)]
          | none => []
        else
          []
      let tail := drainAsync urcCb rest
      (dispatched ++ tail.1, tail.2 + 1)

/-- Observable outcome of one cycle of the MonitorAsync outer loop. -/
structure CycleResult where
  requestWord : Nat
  dispatches : List (Nat × List Char)
  consumedFetches : Nat
  blockedOnSem : Bool
deriving Repr, DecidableEq

/-- One cycle of MonitorAsync: drain the async channel until a fetch
fails, then block on the async channel's semaphore. -/
def MonitorAsyncCycle (urcCb : Option Nat) (fetches : List AsyncFetch) :
    CycleResult :=
  ⟨CREATE_REQUEST SECURE_SERVICE_ASYNC_CHANNEL 0 0,
   (drainAsync urcCb fetches).1,
   (drainAsync urcCb fetches).2,
   true⟩

theorem drainAsync_split (urcCb : Option Nat) (pre : List AsyncFetch)
    (f : AsyncFetch) (rest : List AsyncFetch)
    (hpre : ∀ x ∈ pre, x.result = 0) (hf : f.result ≠ 0) :
    drainAsync urcCb (pre ++ f :: rest) =
      (pre.filterMap (fun x =>
        if x.event = Async_Event_AtUrc then
          Option.map (fun cb => (cb, x.buffer)) urcCb
        else none),
       pre.length + 1) := by
  induction pre with
  | nil => simp [drainAsync, hf]
  | cons x xs ih =>
    have hx : x.result = 0 := hpre x (by simp)
    have hxs : ∀ y ∈ xs, y.result = 0 := by
      intro y hy
      exact hpre y (by simp [hy])
    have ihx := ih hxs
    rw [List.cons_append]
    rw [show drainAsync urcCb (x :: (xs ++ f :: rest)) =
      ((if x.event = Async_Event_AtUrc then
          match urcCb with
          | some cb => [(cb, x.buffer)]
          | none => []
        else []) ++ (drainAsync urcCb (xs ++ f :: rest)).1,
       (drainAsync urcCb (xs ++ f :: rest)).2 + 1) by
        simp [drainAsync, hx]]
    rw [ihx]
    rw [List.filterMap_cons]
    cases urcCb with
    | none =>
      by_cases hev : x.event = Async_Event_AtUrc <;> simp [hev]
    | some cb =>
      by_cases hev : x.event = Async_Event_AtUrc <;> simp [hev]

/-- CLAIM C8: in each cycle the pump uses the async channel's synthetic
request word (channel = async, service = 0, api = 0), dispatches every
message fetched with result 0 (when its event is the AT-URC kind and a
callback is registered; a null callback drops messages), stops draining
exactly at the first non-zero fetch result — consuming the leading
successes plus that one failing fetch and nothing after it — and then
blocks on the async channel's semaphore. -/
theorem monitor_async_drain (urcCb : Option Nat) (pre : List AsyncFetch)
    (f : AsyncFetch) (rest : List AsyncFetch)
    (hpre : ∀ x ∈ pre, x.result = 0) (hf : f.result ≠ 0) :
    (MonitorAsyncCycle urcCb (pre ++ f :: rest)).requestWord =
      CREATE_REQUEST SECURE_SERVICE_ASYNC_CHANNEL 0 0 ∧
    (MonitorAsyncCycle urcCb (pre ++ f :: rest)).consumedFetches =
      pre.length + 1 ∧
    (MonitorAsyncCycle urcCb (pre ++ f :: rest)).dispatches =
      pre.filterMap (fun x =>
        if x.event = Async_Event_AtUrc then
          Option.map (fun cb => (cb, x.buffer)) urcCb
        else none) ∧
    (urcCb = none →
      (MonitorAsyncCycle urcCb (pre ++ f :: rest)).dispatches = []) ∧
    (MonitorAsyncCycle urcCb (pre ++ f :: rest)).blockedOnSem = true := by
  have hd := drainAsync_split urcCb pre f rest hpre hf
  unfold MonitorAsyncCycle
  rw [hd]
  refine ⟨rfl, rfl, rfl, ?_, rfl⟩
  intro hnone
  subst hnone
  simp

/-- Witness for C8: with callback 3 registered, a queue holding two
successful fetches (one AT-URC event, one unknown event) followed by a
failing fetch dispatches exactly the AT-URC buffer, consumes three fetches
and blocks. -/
theorem monitor_async_drain_witness :
    (MonitorAsyncCycle (some 3)
        [⟨0, 0, ['a']⟩, ⟨0, 1, ['b']⟩, ⟨-11, 0, []⟩]).requestWord =
      CREATE_REQUEST SECURE_SERVICE_ASYNC_CHANNEL 0 0 ∧
    (MonitorAsyncCycle (some 3)
        [⟨0, 0, ['a']⟩, ⟨0, 1, ['b']⟩, ⟨-11, 0, []⟩]).consumedFetches = 3 ∧
    (MonitorAsyncCycle (some 3)
        [⟨0, 0, ['a']⟩, ⟨0, 1, ['b']⟩, ⟨-11, 0, []⟩]).dispatches =
      [(3, ['a'])] ∧
    (MonitorAsyncCycle (some 3)
        [⟨0, 0, ['a']⟩, ⟨0, 1, ['b']⟩, ⟨-11, 0, []⟩]).blockedOnSem = true := by
  have h := monitor_async_drain (some 3) [⟨0, 0, ['a']⟩, ⟨0, 1, ['b']⟩]
    ⟨-11, 0, []⟩ [] (by decide) (by decide)
  exact ⟨h.1, h.2.1, h.2.2.1.trans (by rfl), h.2.2.2.2⟩

/-! The fota_download adapter (fota_download_start and its AT URC handler
UrcCallback).

External collaborators are modelled as oracles: at_cmd_write returns a
result and an at_cmd_state; libc strtoul returns a parsed value and whether
its end pointer is NULL; the Kconfig buffer bound
CONFIG_AT_CMD_RESPONSE_MAX_LEN + 1 is the bufSize parameter.  Strings are
List Char; snprintf("AT#XFOTA=%s,%s", host, file) needs 9 + host length +
1 + file length characters, which is the value snprintf returns. -/

/-- CME error 258 (cme.h: PHONE_IS_BUSY). -/
def CME_PHONE_IS_BUSY : Int := 258

/-- The at_cmd_state enumeration of the at_cmd collaborator library. -/
inductive AtCmdState where
  | AT_CMD_OK
  | AT_CMD_ERROR
  | AT_CMD_ERROR_QUEUE
  | AT_CMD_ERROR_WRITE
  | AT_CMD_ERROR_READ
  | AT_CMD_ERROR_CME
  | AT_CMD_ERROR_CMS
  | AT_CMD_NOTIFICATION
deriving Repr, DecidableEq

/-- Events of struct fota_download_evt that this adapter can send. -/
inductive FotaDownloadEvt where
  | error
  | progress (offset : Nat)
  | finished
deriving Repr, DecidableEq

/-- Embedding of fota_download_start from the fota_download adapter.
Returns (result, new value of the fotaStarted flag).  The final branch
mirrors the source exactly: after a fully successful AT command the source
executes fotaStarted = false under the comment "Note FOTA has started". -/
def fota_download_start (fotaStarted : Bool) (host file : List Char)
    (bufSize : Nat) (atResult : Int) (atState : AtCmdState) : Int × Bool :=
  if fotaStarted then
    (-EALREADY, fotaStarted)
  else
    if 9 + host.length + 1 + file.length ≥ bufSize then
      (-ENOBUFS, fotaStarted)
    else if atResult ≠ 0 then
      (atResult, fotaStarted)
    else if atState = AtCmdState.AT_CMD_ERROR_CME ∧
        atResult = CME_PHONE_IS_BUSY then
      (-EALREADY, fotaStarted)
    else if atState ≠ AtCmdState.AT_CMD_OK then
      (-ENOEXEC, fotaStarted)
    else
      (0, false)

/-- Embedding of the strchr call in UrcCallback, which searches for the
space character: the suffix of the string starting at its first space, if
any. -/
def strchrSpace : List Char → Option (List Char)
  | [] => none
  | c :: rest => if c = ' ' then some (c :: rest) else strchrSpace rest

/-- Embedding of UrcCallback from the fota_download adapter.  Inputs beyond
the module state (fotaStarted, whether a fota_download callback is
registered) and the URC text are the strtoul oracles: the parsed event
value and whether strtoul left its end pointer NULL, and the progress value
parsed for event 2.  Returns (new fotaStarted, event delivered to the
registered callback, if any). -/
def UrcCallback (fotaStarted : Bool) (cbSet : Bool) (urc : List Char)
    (strtoulValue : Nat) (strtoulEndNull : Bool) (progressValue : Nat) :
    Bool × Option FotaDownloadEvt :=
  if fotaStarted = false then
    (fotaStarted, none)
  else if ¬ (urc.take 4 = ['D', 'F', 'U', ':']) then
    (fotaStarted, none)
  else
    match strchrSpace urc with
    | none => (fotaStarted, none)
    | some _ =>
      if strtoulValue = 0 ∧ strtoulEndNull then
        (fotaStarted, none)
      else
        match strtoulValue with
        | 1 => (fotaStarted, none)
        | 2 => (fotaStarted,
            if cbSet then some (FotaDownloadEvt.progress progressValue)
            else none)
        | 3 => (false, if cbSet then some FotaDownloadEvt.finished else none)
        | _ => (false, if cbSet then some FotaDownloadEvt.error else none)

/-- CLAIM C1 (code bug evaluated at the failing input): a fully successful
fota_download_start returns 0 but leaves the FOTA-started flag false, so
the URC handler ignores every subsequent DFU URC and a second
fota_download_start returns 0 again instead of -EALREADY.  The claim (and
the code comment "Note FOTA has started", the documented -EALREADY
contract, and the URC-handler gate) require the flag to become true. -/
theorem fota_started_flag_bug :
    fota_download_start false ['h'] ['f'] 100 0 AtCmdState.AT_CMD_OK
      = (0, false) ∧
    UrcCallback false true ['D', 'F', 'U', ':', ' ', '3'] 3 false 0
      = (false, none) ∧
    (fota_download_start
        (fota_download_start false ['h'] ['f'] 100 0 AtCmdState.AT_CMD_OK).2
        ['h'] ['f'] 100 0 AtCmdState.AT_CMD_OK).1 = 0 := by
  refine ⟨by decide, ?_, by decide⟩
  rw [show UrcCallback false true ['D', 'F', 'U', ':', ' ', '3'] 3 false 0
    = (false, none) from rfl]

end Skywire
